import Mathlib

/-!
Verification of the subprocess-lifecycle / readiness / record-extraction core
of the poc-mcp repository, as a shallow embedding in Lean.

Embedded source functions:
  * src/main.py              : _parse_records (record extraction from agent text)
  * src/mcp_utils.py         : wait_http_ok   (readiness prober)
  * src/server_manager.py    : PlaywrightServerManager.start_server / stop_server,
                               create_mcp_servers
  * src/agent_poc_agents_sdk.py : the spawn-and-probe path of main()

Python strings are modelled as List Char / String, machine time in whole
milliseconds as Nat, subprocess and network effects as explicit parameters
(whether the process is still alive after the grace wait, what each probe
attempt returns, whether each shutdown step raises), and each effectful
function additionally returns the ordered list of observable actions it
performed, so that temporal claims about call order can be stated.
A Python exception is an Except.error value; a try/except block is a match
on that value.
-/

/-! ## JSON values and a model of json.loads

Python json.loads implements the RFC 8259 grammar (plus, by default, the
constants NaN, Infinity and -Infinity).  Numbers are kept as their lexeme:
their float semantics is outside the model.  A JSONDecodeError is the none
result.  The parser is fuelled so that the recursion is structural; the fuel
given by jsonLoads is generous enough for any input that consumes at least
one character per grammar step.
-/

inductive Json where
  | null
  | bool (b : Bool)
  | num (lexeme : String)
  | str (s : String)
  | arr (items : List Json)
  | obj (pairs : List (String × Json))
deriving Repr

/-- The left-brace character, written via its code point. -/
def lbrace : Char := Char.ofNat 123

/-- The right-brace character, written via its code point. -/
def rbrace : Char := Char.ofNat 125

/-- JSON whitespace: the four characters json.loads skips between tokens. -/
def jsonWs (c : Char) : Bool := c = ' ' || c = '\t' || c = '\n' || c = '\r'

/-- Skip JSON whitespace. -/
def skipWs (cs : List Char) : List Char := cs.dropWhile jsonWs

/-- Value of one hexadecimal digit, for u-escapes in JSON strings. -/
def hexDigitVal (c : Char) : Option Nat :=
  if '0' ≤ c ∧ c ≤ '9' then some (c.toNat - 48)
  else if 'a' ≤ c ∧ c ≤ 'f' then some (c.toNat - 87)
  else if 'A' ≤ c ∧ c ≤ 'F' then some (c.toNat - 55)
  else none

/-- Body of a JSON string after the opening quote: plain characters, the
short escapes, and 4-digit u-escapes; unescaped control characters are
rejected, as json.loads does in strict mode. -/
def parseStringBody (fuel : Nat) (acc : List Char) (cs : List Char) :
    Option (String × List Char) :=
  match fuel with
  | 0 => none
  | fuel + 1 =>
    match cs with
    | [] => none
    | c :: rest =>
      if c = '"' then some (String.mk acc.reverse, rest)
      else if c = '\\' then
        match rest with
        | [] => none
        | e :: rest2 =>
          if e = '"' ∨ e = '\\' ∨ e = '/' then parseStringBody fuel (e :: acc) rest2
          else if e = 'b' then parseStringBody fuel (Char.ofNat 8 :: acc) rest2
          else if e = 'f' then parseStringBody fuel (Char.ofNat 12 :: acc) rest2
          else if e = 'n' then parseStringBody fuel ('\n' :: acc) rest2
          else if e = 'r' then parseStringBody fuel ('\r' :: acc) rest2
          else if e = 't' then parseStringBody fuel ('\t' :: acc) rest2
          else if e = 'u' then
            match rest2 with
            | h1 :: h2 :: h3 :: h4 :: rest3 =>
              match hexDigitVal h1, hexDigitVal h2, hexDigitVal h3, hexDigitVal h4 with
              | some a, some b, some c2, some d =>
                parseStringBody fuel
                  (Char.ofNat (((a * 16 + b) * 16 + c2) * 16 + d) :: acc) rest3
              | _, _, _, _ => none
            | _ => none
          else none
      else if c.toNat < 32 then none
      else parseStringBody fuel (c :: acc) rest

/-- Longest leading run of decimal digits, and the remainder. -/
def takeDigits (cs : List Char) : List Char × List Char :=
  (cs.takeWhile Char.isDigit, cs.dropWhile Char.isDigit)

/-- Optional fraction part of a JSON number: a dot must be followed by at
least one digit. -/
def parseFracPart (cs : List Char) : Option (List Char × List Char) :=
  match cs with
  | '.' :: rest =>
    let (ds, r) := takeDigits rest
    if ds.isEmpty then none else some ('.' :: ds, r)
  | _ => some ([], cs)

/-- Optional exponent part of a JSON number. -/
def parseExpPart (cs : List Char) : Option (List Char × List Char) :=
  match cs with
  | c :: rest =>
    if c = 'e' ∨ c = 'E' then
      match rest with
      | s :: rest2 =>
        if s = '+' ∨ s = '-' then
          let (ds, r) := takeDigits rest2
          if ds.isEmpty then none else some (c :: s :: ds, r)
        else
          let (ds, r) := takeDigits rest
          if ds.isEmpty then none else some (c :: ds, r)
      | [] => none
    else some ([], cs)
  | [] => some ([], cs)

/-- A JSON number: optional minus, integer part with no leading zeros,
optional fraction and exponent.  The lexeme is returned unevaluated. -/
def parseNumber (cs : List Char) : Option (String × List Char) :=
  let sgncs : List Char × List Char :=
    match cs with
    | '-' :: rest => (['-'], rest)
    | _ => ([], cs)
  match sgncs.2 with
  | c :: rest =>
    if c = '0' then
      match parseFracPart rest with
      | some (fp, r1) =>
        match parseExpPart r1 with
        | some (ep, r2) => some (String.mk (sgncs.1 ++ [c] ++ fp ++ ep), r2)
        | none => none
      | none => none
    else if c.isDigit then
      let dsr := takeDigits rest
      match parseFracPart dsr.2 with
      | some (fp, r1) =>
        match parseExpPart r1 with
        | some (ep, r2) => some (String.mk (sgncs.1 ++ c :: dsr.1 ++ fp ++ ep), r2)
        | none => none
      | none => none
    else none
  | [] => none

mutual

/-- One JSON value, leading whitespace allowed. -/
def parseValue (fuel : Nat) (cs : List Char) : Option (Json × List Char) :=
  match fuel with
  | 0 => none
  | fuel + 1 =>
    let cs := skipWs cs
    if ['t','r','u','e'].isPrefixOf cs then some (Json.bool true, cs.drop 4)
    else if ['f','a','l','s','e'].isPrefixOf cs then some (Json.bool false, cs.drop 5)
    else if ['n','u','l','l'].isPrefixOf cs then some (Json.null, cs.drop 4)
    else if ['N','a','N'].isPrefixOf cs then some (Json.num "NaN", cs.drop 3)
    else if ['I','n','f','i','n','i','t','y'].isPrefixOf cs then
      some (Json.num "Infinity", cs.drop 8)
    else if ['-','I','n','f','i','n','i','t','y'].isPrefixOf cs then
      some (Json.num "-Infinity", cs.drop 9)
    else
      match cs with
      | [] => none
      | c :: rest =>
        if c = '"' then
          match parseStringBody (rest.length + 1) [] rest with
          | some (s, r) => some (Json.str s, r)
          | none => none
        else if c = '[' then parseElems fuel rest
        else if c = lbrace then parseMembers fuel rest
        else
          match parseNumber (c :: rest) with
          | some (lexeme, r) => some (Json.num lexeme, r)
          | none => none

/-- Contents of an array after the opening bracket: empty, or a
comma-separated element list (no trailing comma). -/
def parseElems (fuel : Nat) (cs : List Char) : Option (Json × List Char) :=
  match fuel with
  | 0 => none
  | fuel + 1 =>
    match skipWs cs with
    | ']' :: r => some (Json.arr [], r)
    | cs2 => parseElemsLoop fuel cs2

/-- Element list of a nonempty array: a value, then a comma and more
elements or the closing bracket. -/
def parseElemsLoop (fuel : Nat) (cs : List Char) : Option (Json × List Char) :=
  match fuel with
  | 0 => none
  | fuel + 1 =>
    match parseValue fuel cs with
    | some (v, r) =>
      match skipWs r with
      | ',' :: r2 =>
        match parseElemsLoop fuel r2 with
        | some (Json.arr vs, r3) => some (Json.arr (v :: vs), r3)
        | _ => none
      | ']' :: r2 => some (Json.arr [v], r2)
      | _ => none
    | none => none

/-- Contents of an object after the opening brace: empty, or a
comma-separated member list (no trailing comma). -/
def parseMembers (fuel : Nat) (cs : List Char) : Option (Json × List Char) :=
  match fuel with
  | 0 => none
  | fuel + 1 =>
    match skipWs cs with
    | c :: r => if c = rbrace then some (Json.obj [], r) else parseMembersLoop fuel (c :: r)
    | [] => none

/-- Member list of a nonempty object: a quoted key, a colon, a value, then
a comma and more members or the closing brace. -/
def parseMembersLoop (fuel : Nat) (cs : List Char) : Option (Json × List Char) :=
  match fuel with
  | 0 => none
  | fuel + 1 =>
    match skipWs cs with
    | '"' :: r =>
      match parseStringBody (r.length + 1) [] r with
      | some (k, r1) =>
        match skipWs r1 with
        | ':' :: r2 =>
          match parseValue fuel r2 with
          | some (v, r3) =>
            match skipWs r3 with
            | ',' :: r4 =>
              match parseMembersLoop fuel r4 with
              | some (Json.obj ms, r5) => some (Json.obj ((k, v) :: ms), r5)
              | _ => none
            | c :: r4 => if c = rbrace then some (Json.obj [(k, v)], r4) else none
            | [] => none
          | none => none
        | _ => none
      | none => none
    | _ => none

end

/-- Model of json.loads: parse one value and require only whitespace after
it, otherwise a JSONDecodeError (none).  The fuel 4*(n+1) over-approximates
the number of grammar steps, each of which consumes at least one of the n
input characters within at most four fuel ticks. -/
def json_loads (s : String) : Option Json :=
  match parseValue (4 * s.length + 4) s.data with
  | some (v, rest) => if (skipWs rest).isEmpty then some v else none
  | none => none

/-! ## Python string helpers used by _parse_records -/

/-- Whitespace removed by Python str.strip(); the ASCII part of the set is
modelled, which covers every character the repository feeds it. -/
def pySpace (c : Char) : Bool :=
  c = ' ' || c = '\t' || c = '\n' || c = '\r' || c = '\x0b' || c = '\x0c'

/-- Python str.strip(): drop leading and trailing whitespace. -/
def pyStrip (cs : List Char) : List Char :=
  ((cs.dropWhile pySpace).reverse.dropWhile pySpace).reverse

/-- Python str.find(c): index of the first occurrence, none for -1. -/
def pyFind (c : Char) (cs : List Char) : Option Nat :=
  cs.findIdx? (fun d => d = c)

/-- Python str.rfind(c): index of the last occurrence, none for -1. -/
def pyRfind (c : Char) (cs : List Char) : Option Nat :=
  (cs.reverse.findIdx? (fun d => d = c)).map (fun i => cs.length - 1 - i)

/-! ## _parse_records (src/main.py lines 111-135) -/

/-- Candidate JSON-array substring selected by _parse_records: the empty
input is rejected up front (Python falsiness of the empty string), the
stripped text is used whole when it is bracketed at both ends, otherwise
the slice from the first left bracket to the last right bracket is taken
when that span is nonempty. -/
def extractCandidate (s : String) : Option (List Char) :=
  if s.data.isEmpty then none
  else
    let t := pyStrip s.data
    if t.head? = some '[' ∧ t.getLast? = some ']' then some t
    else
      match pyFind '[' t, pyRfind ']' t with
      | some start, some stop =>
        if stop ≤ start then none else some ((t.drop start).take (stop + 1 - start))
      | _, _ => none

/-- _parse_records: extract the candidate substring, decode it with
json.loads, and return the decoded value only when it is a JSON array;
a decode failure or a non-array value gives None. -/
def parse_records (s : String) : Option (List Json) :=
  match extractCandidate s with
  | none => none
  | some cs =>
    match json_loads (String.mk cs) with
    | some (Json.arr xs) => some xs
    | _ => none

example :
    parse_records "Hello! Here is your JSON: [\x7b\"Link\":\"https://a\",\"Company\":\"A\"\x7d] Done."
      = some [Json.obj [("Link", Json.str "https://a"), ("Company", Json.str "A")]] := by
  rfl

example : parse_records "No offers found." = none := by rfl

example : parse_records "" = none := by rfl

example : parse_records "  [1, 2.5e3, true, null] tail " = some
    [Json.num "1", Json.num "2.5e3", Json.bool true, Json.null] := by rfl

example : parse_records "x [not json] y" = none := by rfl

example : parse_records "\x7b\"a\": [1]\x7d" = some [Json.num "1"] := by rfl

/-! ## wait_http_ok (src/mcp_utils.py lines 13-27)

Time is modelled in whole milliseconds, starting at 0 when probing starts;
the deadline argument of the Python function is the configured timeout
relative to that origin.  One probe attempt is a value of
Except String Nat: ok status for a response (urlopen returned), error for
any exception raised by the attempt (connection refused etc.).  The only
modelled time cost is the fixed 200 ms sleep after a failed attempt,
mirroring time.sleep(0.2); a failed attempt itself is instantaneous in the
model.  The loop is fuelled with the deadline itself, which bounds the
number of 200 ms steps; the fuel-exhausted branch coincides with the
timeout branch and is only reachable once the deadline has passed. -/

/-- The fixed sleep between probe attempts, time.sleep(0.2). -/
def pollIntervalMs : Nat := 200

/-- The while loop of wait_http_ok: at current time t, stop with False once
the deadline has passed; otherwise attempt the request, treat any response
(whatever its status) as ready, and treat any exception as not-ready-yet,
sleeping 200 ms before retrying.  The redundant status test mirrors the
source, which checks for 200/204 and then returns True in both branches. -/
def wait_http_ok_loop (attempt : Nat → Except String Nat) (deadline : Nat) :
    Nat → Nat → Nat → Except String (Bool × Nat)
  | 0, _, t => Except.ok (false, t)
  | fuel + 1, i, t =>
    if t < deadline then
      match attempt i with
      | Except.ok status =>
        if status = 200 ∨ status = 204 then Except.ok (true, t) else Except.ok (true, t)
      | Except.error _ =>
        wait_http_ok_loop attempt deadline fuel (i + 1) (t + pollIntervalMs)
    else Except.ok (false, t)

/-- wait_http_ok(url, deadline): poll the url until it responds or the
deadline passes.  The url parameter only selects which listener the
attempts hit, which the attempt function already encodes. -/
def wait_http_ok (_url : String) (attempt : Nat → Except String Nat) (deadline : Nat) :
    Except String (Bool × Nat) :=
  wait_http_ok_loop attempt deadline deadline 0 0

/-- Whether an embedded call returned normally (ok) rather than raising. -/
def isOkResult {ε α : Type} (r : Except ε α) : Bool :=
  match r with
  | Except.ok _ => true
  | Except.error _ => false

theorem wait_http_ok_loop_isOk (attempt : Nat → Except String Nat) (deadline : Nat) :
    ∀ fuel i t, isOkResult (wait_http_ok_loop attempt deadline fuel i t) = true := by
  intro fuel
  induction fuel with
  | zero => intro i t; rfl
  | succ f ih =>
    intro i t
    rw [wait_http_ok_loop]
    split
    · cases attempt i with
      | ok status =>
        show isOkResult (if status = 200 ∨ status = 204 then _ else _) = true
        split <;> rfl
      | error e => exact ih (i + 1) (t + pollIntervalMs)
    · rfl

theorem wait_http_ok_loop_timeout (attempt : Nat → Except String Nat) (deadline : Nat)
    (h : ∀ j, ∃ e, attempt j = Except.error e) :
    ∀ fuel i t, deadline - t ≤ fuel → t < deadline + pollIntervalMs →
    ∃ texit, wait_http_ok_loop attempt deadline fuel i t = Except.ok (false, texit) ∧
      deadline ≤ texit ∧ texit < deadline + pollIntervalMs := by
  have hp : pollIntervalMs = 200 := rfl
  intro fuel
  induction fuel with
  | zero =>
    intro i t hf ht
    exact ⟨t, rfl, by omega, ht⟩
  | succ f ih =>
    intro i t hf ht
    rw [wait_http_ok_loop]
    split
    · obtain ⟨e, he⟩ := h i
      rw [he]
      exact ih (i + 1) (t + pollIntervalMs) (by omega) (by omega)
    · exact ⟨t, rfl, by omega, ht⟩

theorem wait_http_ok_loop_first_response (attempt : Nat → Except String Nat)
    (deadline : Nat) (s : Nat) :
    ∀ k i t fuel, (∀ j, j < k → ∃ e, attempt (i + j) = Except.error e) →
      attempt (i + k) = Except.ok s →
      t + pollIntervalMs * k < deadline → deadline - t ≤ fuel →
      wait_http_ok_loop attempt deadline fuel i t =
        Except.ok (true, t + pollIntervalMs * k) := by
  have hp : pollIntervalMs = 200 := rfl
  intro k
  induction k with
  | zero =>
    intro i t fuel hfail hok hlt hf
    rw [hp] at hlt
    have ht : t < deadline := by omega
    match fuel with
    | 0 => exact absurd ht (by omega)
    | f + 1 =>
      rw [wait_http_ok_loop, if_pos ht]
      have hi : attempt i = Except.ok s := by
        have h0 : i + 0 = i := by omega
        rw [h0] at hok; exact hok
      rw [hi]
      have harith : t + pollIntervalMs * 0 = t := by rw [hp]; ring
      rw [harith]
      simp
  | succ m ih =>
    intro i t fuel hfail hok hlt hf
    rw [hp] at hlt
    have ht : t < deadline := by omega
    match fuel with
    | 0 => exact absurd ht (by omega)
    | f + 1 =>
      rw [wait_http_ok_loop, if_pos ht]
      obtain ⟨e, he⟩ := by
        have h0 : i + 0 = i := by omega
        have := hfail 0 (by omega)
        rw [h0] at this
        exact this
      rw [he]
      have step : wait_http_ok_loop attempt deadline f (i + 1) (t + pollIntervalMs) =
          Except.ok (true, (t + pollIntervalMs) + pollIntervalMs * m) := by
        refine ih (i + 1) (t + pollIntervalMs) f ?_ ?_ ?_ (by omega)
        · intro j hj
          have hsh : i + 1 + j = i + (j + 1) := by omega
          rw [hsh]
          exact hfail (j + 1) (by omega)
        · have hsh : i + 1 + m = i + (m + 1) := by omega
          rw [hsh]; exact hok
        · rw [hp]; omega
      rw [step]
      have harith : (t + pollIntervalMs) + pollIntervalMs * m = t + pollIntervalMs * (m + 1) := by
        rw [hp]; ring
      rw [harith]

/-! ## Observable actions of the lifecycle code

Each effectful lifecycle function returns, besides its result, the ordered
list of observable actions it performed, so that claims about which actions
happen and in which order can be stated.
-/

inductive Ev where
  | spawn (cmd : List String)
  | graceSleep (secs : Nat)
  | logError (msg : String)
  | probe (url : String) (timeoutMs : Nat)
  | stopCall
  | sigint
  | terminate
  | kill
  | pkill (pat : String)
  | warn
  | sessionOpen (server : String)
  | sessionClose (server : String)
  | agentRun
deriving DecidableEq, Repr

/-- Whether an action is an invocation of the readiness prober. -/
def Ev.isProbe : Ev → Bool
  | Ev.probe _ _ => true
  | _ => false

/-- Whether an action sends a signal to the managed subprocess itself
(as opposed to the pattern-based pkill cleanup). -/
def Ev.isMainSignal : Ev → Bool
  | Ev.sigint => true
  | Ev.terminate => true
  | Ev.kill => true
  | _ => false

/-! ## PlaywrightServerManager.stop_server (src/server_manager.py lines 143-176)

The manager state is the server_process attribute: some () when a spawned
subprocess handle is held, none otherwise.  The OS-dependent outcome of each
shutdown step is a StopBehavior: whether each signalling call raises and
whether each bounded wait returns before its timeout.
-/

structure StopBehavior where
  sigintRaises : Bool
  waitGraceOk : Bool
  terminateRaises : Bool
  waitTermOk : Bool
  killRaises : Bool
  pkillRaises : Bool
deriving DecidableEq, Repr

/-- Actions of the graceful-then-forceful shutdown block: SIGINT, wait up
to 5 s; on timeout terminate, wait up to 3 s; on timeout kill.  An
exception from any step is caught by the surrounding except clause, which
only logs a warning. -/
def mainStopEvs (b : StopBehavior) : List Ev :=
  if b.sigintRaises then [Ev.sigint, Ev.warn]
  else if b.waitGraceOk then [Ev.sigint]
  else if b.terminateRaises then [Ev.sigint, Ev.terminate, Ev.warn]
  else if b.waitTermOk then [Ev.sigint, Ev.terminate]
  else if b.killRaises then [Ev.sigint, Ev.terminate, Ev.kill, Ev.warn]
  else [Ev.sigint, Ev.terminate, Ev.kill]

/-- Actions of the unconditional best-effort cleanup block: two pkill
invocations against process-name patterns; an exception from either is
caught and logged. -/
def cleanupEvs (b : StopBehavior) : List Ev :=
  if b.pkillRaises then [Ev.pkill "playwright/mcp", Ev.warn]
  else [Ev.pkill "playwright/mcp", Ev.pkill "node.*playwright"]

/-- stop_server: when a subprocess handle is held, run the shutdown block
and clear the handle (its finally clause); then always run the pattern
cleanup block.  Every exception inside is caught, so the call always
returns normally. -/
def stop_server (proc : Option Unit) (b : StopBehavior) :
    Except String (Option Unit × List Ev) :=
  match proc with
  | none => Except.ok (none, cleanupEvs b)
  | some _ => Except.ok (none, mainStopEvs b ++ cleanupEvs b)

/-! ## PlaywrightServerManager.start_server (src/server_manager.py lines 68-141) -/

/-- Modelled from the spec: config.py is not among the provided sources;
section 6 of the spec lists a tool-call timeout (milliseconds on the
command line) among the environment-sourced configuration.  Its value does
not matter to any claim. -/
def mcpPlaywrightTimeoutSeconds : Nat := 60

/-- The launch command built by start_server.  The fresh output directory
created by tempfile.mkdtemp is abstracted to a fixed placeholder path. -/
def playwrightCmd (port : Nat) : List String :=
  ["npx", "-y", "@playwright/mcp@latest",
   "--port=" ++ toString port,
   "--host=127.0.0.1",
   "--output-dir=/tmp/playwright-mcp-tmpdir",
   "--timeout-action", toString (mcpPlaywrightTimeoutSeconds * 1000),
   "--timeout-navigation", toString (mcpPlaywrightTimeoutSeconds * 1000)]

/-- The error detail logged when the subprocess has already exited after
the grace wait: the exit code, and the captured log output when any was
captured. -/
def startupErrorMsg (rc : Int) (logOutput : String) : String :=
  "Process exited with code " ++ toString rc ++ ".\n" ++
    (if logOutput = "" then "No output was captured in the log file."
     else "Log output:\n" ++ logOutput)

/-- start_server: with an external url configured, return it at once with
no actions.  Otherwise spawn the launch command, sleep the fixed 5 s grace
period, and poll() the process once: pollResult is its exit code, none
while it still runs.  On an early exit the captured output is logged and a
RuntimeError is raised; the except clause around the block calls
stop_server before re-raising.  When the process survived the grace wait
the server is assumed ready and the derived /mcp endpoint is returned
without any readiness probe. -/
def start_server (externalUrl : Option String) (port : Nat) (pollResult : Option Int)
    (logOutput : String) (sb : StopBehavior) :
    Except String String × Option Unit × List Ev :=
  match externalUrl with
  | some u => (Except.ok u, none, [])
  | none =>
    let ev0 := [Ev.spawn (playwrightCmd port), Ev.graceSleep 5]
    match pollResult with
    | some rc =>
      match stop_server (some ()) sb with
      | Except.ok (p, sev) =>
        (Except.error "Failed to start Playwright MCP server", p,
          ev0 ++ [Ev.logError (startupErrorMsg rc logOutput), Ev.stopCall] ++ sev)
      | Except.error e =>
        (Except.error e, some (),
          ev0 ++ [Ev.logError (startupErrorMsg rc logOutput), Ev.stopCall])
    | none =>
      (Except.ok ("http://127.0.0.1:" ++ toString port ++ "/mcp"), some (), ev0)

/-! ## The spawn-and-probe path of main (src/agent_poc_agents_sdk.py lines 139-164) -/

/-- MCP_READY_WAIT_SECONDS = 30, in the millisecond time scale of the
probe model. -/
def mcpReadyWaitMs : Nat := 30000

/-- The launch command built by the agent_poc script with its default
browser (chromium) and headless settings. -/
def agentPocCmd (port : Nat) : List String :=
  ["npx", "-y", "@playwright/mcp@latest",
   "--browser=chromium",
   "--port=" ++ toString port,
   "--headless"]

/-- The spawn path of agent_poc_agents_sdk.main: with an external SSE url
configured use it directly; otherwise spawn the server on a free port and
invoke the readiness prober against the derived /sse endpoint with the
30 s timeout, raising a RuntimeError when it reports not-ready. -/
def agent_poc_start (externalUrl : Option String) (port : Nat)
    (attempt : Nat → Except String Nat) : Except String String × List Ev :=
  match externalUrl with
  | some u => (Except.ok u, [])
  | none =>
    let url := "http://127.0.0.1:" ++ toString port ++ "/sse"
    let ev := [Ev.spawn (agentPocCmd port), Ev.probe url mcpReadyWaitMs]
    match wait_http_ok url attempt mcpReadyWaitMs with
    | Except.ok (true, _) => (Except.ok url, ev)
    | _ =>
      (Except.error ("Playwright MCP server did not become ready at " ++ url ++
        " within timeout."), ev)

/-! ## create_mcp_servers and its caller (src/server_manager.py lines 203-253)

The context manager starts the Playwright server, wraps the endpoint in a
protocol client, optionally prepares the stdio Airtable client, opens the
session scopes (playwright outer, airtable inner) and yields to the body;
the body is the agent loop of the orchestrator, whose outcome (final text
or raised error) is the agent argument.  Leaving the scopes closes the
sessions innermost-first, and the finally clause then calls stop_server,
after which the body outcome reaches the caller.
-/

def create_mcp_servers_run (port : Nat) (pollResult : Option Int) (logOutput : String)
    (airtableConfigured : Bool) (agent : Except String String) (sb : StopBehavior) :
    Except String String × List Ev :=
  match start_server none port pollResult logOutput sb with
  | (Except.error e, p, ev) =>
    match stop_server p sb with
    | Except.ok (_, sev) => (Except.error e, ev ++ [Ev.stopCall] ++ sev)
    | Except.error e2 => (Except.error e2, ev ++ [Ev.stopCall])
  | (Except.ok _, p, ev) =>
    let opens := [Ev.sessionOpen "playwright"] ++
      (if airtableConfigured then [Ev.sessionOpen "airtable"] else [])
    let closes := (if airtableConfigured then [Ev.sessionClose "airtable"] else []) ++
      [Ev.sessionClose "playwright"]
    let body := ev ++ opens ++ [Ev.agentRun] ++ closes
    match stop_server p sb with
    | Except.ok (_, sev) => (agent, body ++ [Ev.stopCall] ++ sev)
    | Except.error e2 => (Except.error e2, body ++ [Ev.stopCall])

/-- The manager state held in a stop_server result. -/
def stopStateOf (r : Except String (Option Unit × List Ev)) : Option (Option Unit) :=
  match r with
  | Except.ok (p, _) => some p
  | Except.error _ => none

/-- The actions recorded in a stop_server result. -/
def stopEventsOf (r : Except String (Option Unit × List Ev)) : List Ev :=
  match r with
  | Except.ok (_, ev) => ev
  | Except.error _ => []

/-- A StopBehavior in which every shutdown step succeeds and the first
bounded wait returns in time. -/
def sb0 : StopBehavior :=
  StopBehavior.mk false true false true false false

/-! ## Shared helper lemmas -/

theorem string_data_append (a b : String) : (a ++ b).data = a.data ++ b.data := by
  cases a; cases b; rfl

theorem sigint_mem_stop (b : StopBehavior) : Ev.sigint ∈ mainStopEvs b ++ cleanupEvs b := by
  have h : Ev.sigint ∈ mainStopEvs b := by
    unfold mainStopEvs
    split_ifs <;> simp
  exact List.mem_append_left _ h

/-! ## Claim theorems -/

/-- C8: record extraction applied to the exact narrated output
"Hello! Here is your JSON: [ ... ] Done." yields exactly one record, the
mapping with Link https://a and Company A. -/
theorem c8_parse_records_single_record :
    parse_records "Hello! Here is your JSON: [\x7b\"Link\":\"https://a\",\"Company\":\"A\"\x7d] Done."
      = some [Json.obj [("Link", Json.str "https://a"), ("Company", Json.str "A")]] := by
  rfl

/-- C9: record extraction applied to the exact output "No offers found."
yields no records: the total function returns none (there is no bracketed
candidate), which the caller treats as empty, and no exception value is
involved. -/
theorem c9_parse_records_no_offers :
    parse_records "No offers found." = none := by
  rfl

/-- C10: _parse_records is total over its input: being a Lean function it
returns for every string either none or a list, and it returns a list
exactly when the extracted bracketed candidate substring decodes to a JSON
array, whose elements it returns. -/
theorem c10_parse_records_total_sound (s : String) :
    parse_records s = none ∨
      ∃ xs, parse_records s = some xs ∧
        ∃ cs, extractCandidate s = some cs ∧
          json_loads (String.mk cs) = some (Json.arr xs) := by
  rcases h1 : extractCandidate s with _ | cs
  · left; simp [parse_records, h1]
  · rcases h2 : json_loads (String.mk cs) with _ | v
    · left; simp [parse_records, h1, h2]
    · cases v with
      | arr xs => right; exact ⟨xs, by simp [parse_records, h1, h2], cs, rfl, h2⟩
      | null => left; simp [parse_records, h1, h2]
      | bool b => left; simp [parse_records, h1, h2]
      | num l => left; simp [parse_records, h1, h2]
      | str st => left; simp [parse_records, h1, h2]
      | obj ms => left; simp [parse_records, h1, h2]

/-- C5: stop_server is idempotent: a first call on a held subprocess handle
returns normally under every behaviour of the shutdown steps and clears the
handle; a second call then also returns normally and sends no signal to the
(already confirmed stopped) subprocess. -/
theorem c5_stop_server_idempotent (b1 b2 : StopBehavior) :
    isOkResult (stop_server (some ()) b1) = true
  ∧ stopStateOf (stop_server (some ()) b1) = some none
  ∧ isOkResult (stop_server none b2) = true
  ∧ (stopEventsOf (stop_server none b2)).all (fun ev => !ev.isMainSignal) = true := by
  refine ⟨rfl, rfl, rfl, ?_⟩
  cases hb : b2.pkillRaises <;>
    simp [stop_server, stopEventsOf, cleanupEvs, hb, Ev.isMainSignal]

/-- C4 counterexample: after a start with an external endpoint the manager
holds no subprocess handle, yet stop_server is not a no-op: it still
performs the pattern-based pkill cleanup actions, so its recorded action
list is nonempty. -/
theorem c4_counterexample :
    start_server (some "http://e/sse") 80 none "" sb0
        = (Except.ok "http://e/sse", none, [])
  ∧ stopEventsOf (stop_server none sb0) ≠ []
  ∧ Ev.pkill "playwright/mcp" ∈ stopEventsOf (stop_server none sb0) := by
  refine ⟨rfl, by decide, by decide⟩

/-- C4 amended: with an external endpoint override, start_server returns
that URL immediately, spawns nothing and records no action, and the
subsequent stop_server never raises and sends no signal to a managed
subprocess (none exists) — but it does still run the best-effort pkill
pattern cleanup rather than doing nothing at all. -/
theorem c4_external_start_stop (u : String) (port : Nat) (pollResult : Option Int)
    (logOutput : String) (sb : StopBehavior) :
    start_server (some u) port pollResult logOutput sb = (Except.ok u, none, [])
  ∧ isOkResult (stop_server none sb) = true
  ∧ (stopEventsOf (stop_server none sb)).all (fun ev => !ev.isMainSignal) = true
  ∧ Ev.pkill "playwright/mcp" ∈ stopEventsOf (stop_server none sb) := by
  refine ⟨rfl, rfl, ?_, ?_⟩
  · cases hb : sb.pkillRaises <;>
      simp [stop_server, stopEventsOf, cleanupEvs, hb, Ev.isMainSignal]
  · cases hb : sb.pkillRaises <;>
      simp [stop_server, stopEventsOf, cleanupEvs, hb]

/-- C3: when the spawned subprocess has already exited (pollResult carries
an exit code) after the fixed grace period, start_server raises the fixed
startup-failure RuntimeError, the captured process output is reported in
the logged error detail (it is a substring of the logged message whenever
any output was captured), and no Ready endpoint is ever returned. -/
theorem c3_startup_failure (port : Nat) (rc : Int) (logOutput : String) (sb : StopBehavior) :
    (start_server none port (some rc) logOutput sb).1
        = Except.error "Failed to start Playwright MCP server"
  ∧ Ev.logError (startupErrorMsg rc logOutput) ∈ (start_server none port (some rc) logOutput sb).2.2
  ∧ (logOutput ≠ "" → logOutput.data <:+: (startupErrorMsg rc logOutput).data)
  ∧ ∀ u, (start_server none port (some rc) logOutput sb).1 ≠ Except.ok u := by
  refine ⟨rfl, ?_, ?_, ?_⟩
  · simp [start_server, stop_server]
  · intro h
    have hmsg : startupErrorMsg rc logOutput
        = ("Process exited with code " ++ toString rc ++ ".\n") ++
            ("Log output:\n" ++ logOutput) := by
      unfold startupErrorMsg
      rw [if_neg h]
    refine ⟨("Process exited with code " ++ toString rc ++ ".\n" ++ "Log output:\n").data,
      [], ?_⟩
    rw [hmsg]
    simp [string_data_append]
  · intro u hu
    exact absurd hu (by simp [start_server, stop_server])

/-- C3 witness: a concrete early-exit start with captured output "boom"
reports that output inside the logged error detail. -/
theorem c3_witness : ("boom" : String).data <:+: (startupErrorMsg 1 "boom").data :=
  (c3_startup_failure 80 1 "boom" sb0).2.2.1 (by decide)

/-- C6: for every readiness timeout T, when every probe attempt fails (the
endpoint never responds), wait_http_ok returns False, at a time no earlier
than T after the start of probing and no later than T plus one poll
interval. -/
theorem c6_wait_http_ok_timeout_bounds (url : String) (attempt : Nat → Except String Nat)
    (T : Nat) (h : ∀ j, ∃ e, attempt j = Except.error e) :
    ∃ texit, wait_http_ok url attempt T = Except.ok (false, texit) ∧
      T ≤ texit ∧ texit ≤ T + pollIntervalMs := by
  obtain ⟨texit, h1, h2, h3⟩ :=
    wait_http_ok_loop_timeout attempt T h T 0 0 (by omega)
      (by have hp : pollIntervalMs = 200 := rfl; omega)
  exact ⟨texit, h1, h2, by omega⟩

/-- C6 witness: with a 1000 ms timeout and every attempt refused, probing
ends with False between 1000 ms and 1200 ms. -/
theorem c6_witness :
    ∃ texit, wait_http_ok "http://127.0.0.1:8931/sse"
        (fun _ => Except.error "connection refused") 1000
        = Except.ok (false, texit) ∧ 1000 ≤ texit ∧ texit ≤ 1000 + pollIntervalMs :=
  c6_wait_http_ok_timeout_bounds "http://127.0.0.1:8931/sse"
    (fun _ => Except.error "connection refused") 1000
    (fun _ => ⟨"connection refused", rfl⟩)

/-- C7: wait_http_ok never raises: every probe-attempt exception is caught
and treated as not-ready-yet; and it returns True at the first attempt that
yields any response at all, whatever its status code, provided that attempt
happens before the deadline. -/
theorem c7_wait_http_ok_no_throw_any_response (url : String)
    (attempt : Nat → Except String Nat) (deadline k s : Nat) :
    isOkResult (wait_http_ok url attempt deadline) = true
  ∧ ((∀ j, j < k → ∃ e, attempt j = Except.error e) → attempt k = Except.ok s →
      pollIntervalMs * k < deadline →
      wait_http_ok url attempt deadline = Except.ok (true, pollIntervalMs * k)) := by
  constructor
  · exact wait_http_ok_loop_isOk attempt deadline deadline 0 0
  · intro hfail hok hlt
    have hres := wait_http_ok_loop_first_response attempt deadline s k 0 0 deadline
      (by intro j hj; simpa using hfail j hj)
      (by simpa using hok)
      (by omega)
      (by omega)
    simpa [wait_http_ok] using hres

/-- The probe behaviour of the C7 witness: refused twice, then a 500
response. -/
def c7attempt : Nat → Except String Nat :=
  fun j => if j = 2 then Except.ok 500 else Except.error "connection refused"

/-- C7 witness: with the first response (status 500) arriving at the third
attempt, 400 ms in, the prober returns True at 400 ms. -/
theorem c7_witness :
    wait_http_ok "http://127.0.0.1:8931/sse" c7attempt 10000 = Except.ok (true, 400) := by
  have h := (c7_wait_http_ok_no_throw_any_response "http://127.0.0.1:8931/sse"
      c7attempt 10000 2 500).2
    (by intro j hj
        refine ⟨"connection refused", ?_⟩
        have hne : j ≠ 2 := by omega
        simp [c7attempt, hne])
    (by rfl)
    (by have hp : pollIntervalMs = 200 := rfl; omega)
  exact h

/-- C1 counterexample: a managed start whose subprocess survives the grace
period returns the derived endpoint as Ready while its recorded actions
contain no invocation of the readiness prober at all, contradicting the
claim that start invokes the prober before returning. -/
theorem c1_counterexample :
    (start_server none 80 none "" sb0).1 = Except.ok "http://127.0.0.1:80/mcp"
  ∧ ((start_server none 80 none "" sb0).2.2.all (fun ev => !ev.isProbe)) = true := by
  exact ⟨rfl, rfl⟩

/-- C1 amended: the managed start_server of server_manager.py assumes
readiness: after surviving the grace period it returns the derived /mcp
endpoint without invoking the readiness prober.  The prober (with the
configured 30 s timeout) is invoked only by the spawn path of
agent_poc_agents_sdk.main against its derived /sse endpoint: there, probe
success yields the endpoint and probe timeout raises the timeout
RuntimeError. -/
theorem c1_start_readiness (port : Nat) (logOutput : String) (sb : StopBehavior)
    (attempt : Nat → Except String Nat) :
    ((start_server none port none logOutput sb).1
        = Except.ok ("http://127.0.0.1:" ++ toString port ++ "/mcp")
      ∧ ((start_server none port none logOutput sb).2.2.all (fun ev => !ev.isProbe)) = true)
  ∧ Ev.probe ("http://127.0.0.1:" ++ toString port ++ "/sse") mcpReadyWaitMs
      ∈ (agent_poc_start none port attempt).2
  ∧ (∀ texit, wait_http_ok ("http://127.0.0.1:" ++ toString port ++ "/sse") attempt mcpReadyWaitMs
        = Except.ok (true, texit) →
      (agent_poc_start none port attempt).1
        = Except.ok ("http://127.0.0.1:" ++ toString port ++ "/sse"))
  ∧ (∀ texit, wait_http_ok ("http://127.0.0.1:" ++ toString port ++ "/sse") attempt mcpReadyWaitMs
        = Except.ok (false, texit) →
      (agent_poc_start none port attempt).1
        = Except.error ("Playwright MCP server did not become ready at "
            ++ ("http://127.0.0.1:" ++ toString port ++ "/sse") ++ " within timeout.")) := by
  refine ⟨⟨rfl, rfl⟩, ?_, ?_, ?_⟩
  · rcases hw : wait_http_ok ("http://127.0.0.1:" ++ toString port ++ "/sse")
        attempt mcpReadyWaitMs with e | ⟨b, texit⟩
    · simp [agent_poc_start, hw]
    · cases b <;> simp [agent_poc_start, hw]
  · intro texit hw
    simp [agent_poc_start, hw]
  · intro texit hw
    simp [agent_poc_start, hw]

/-- The always-responding probe behaviour of the C1 witness. -/
def c1okAttempt : Nat → Except String Nat := fun _ => Except.ok 200

/-- The never-responding probe behaviour of the C1 witness. -/
def c1failAttempt : Nat → Except String Nat := fun _ => Except.error "connection refused"

/-- C1 witness: at port 80, the managed start returns the /mcp endpoint
without probing; the agent_poc path returns the /sse endpoint when the
probe responds at once, and raises the timeout RuntimeError when nothing
ever responds. -/
theorem c1_witness :
    (start_server none 80 none "" sb0).1
        = Except.ok ("http://127.0.0.1:" ++ toString 80 ++ "/mcp")
  ∧ (agent_poc_start none 80 c1okAttempt).1
      = Except.ok ("http://127.0.0.1:" ++ toString 80 ++ "/sse")
  ∧ (agent_poc_start none 80 c1failAttempt).1
      = Except.error ("Playwright MCP server did not become ready at "
          ++ ("http://127.0.0.1:" ++ toString 80 ++ "/sse") ++ " within timeout.") := by
  refine ⟨(c1_start_readiness 80 "" sb0 c1okAttempt).1.1, ?_, ?_⟩
  · exact (c1_start_readiness 80 "" sb0 c1okAttempt).2.2.1 0 (by rfl)
  · exact (c1_start_readiness 80 "" sb0 c1failAttempt).2.2.2 30000 (by rfl)

/-- C2: in a run where the server reached Ready and the agent loop raises,
the run still ends with that same error reaching the caller, and its
recorded actions place the playwright session close immediately before the
stop_server call, with the SIGINT to the subprocess strictly after both:
session close and stop both execute, in that order, before the exception
propagates. -/
theorem c2_teardown_ordering (port : Nat) (logOutput : String) (atCfg : Bool)
    (e : String) (sb : StopBehavior) :
    (create_mcp_servers_run port none logOutput atCfg (Except.error e) sb).1 = Except.error e
  ∧ ∃ pre suf,
      (create_mcp_servers_run port none logOutput atCfg (Except.error e) sb).2
        = pre ++ [Ev.sessionClose "playwright", Ev.stopCall] ++ suf
      ∧ Ev.sigint ∈ suf := by
  constructor
  · rfl
  · cases atCfg with
    | true =>
      exact ⟨[Ev.spawn (playwrightCmd port), Ev.graceSleep 5,
        Ev.sessionOpen "playwright", Ev.sessionOpen "airtable", Ev.agentRun,
        Ev.sessionClose "airtable"],
        mainStopEvs sb ++ cleanupEvs sb, rfl, sigint_mem_stop sb⟩
    | false =>
      exact ⟨[Ev.spawn (playwrightCmd port), Ev.graceSleep 5,
        Ev.sessionOpen "playwright", Ev.agentRun],
        mainStopEvs sb ++ cleanupEvs sb, rfl, sigint_mem_stop sb⟩
